import Mathlib

/-!
Verification development for the Smart IT Support Automation System.

The repository ships the deployment scripts, the React frontend, and the
device-compliance PowerShell script; the backend pipeline (classifier,
diagnosis engine, policy evaluator, execution engine, approval workflow,
ticket state machine) is exercised only through its HTTP callers, so those
components are modelled here from the specification and checked against the
properties the specification states about them.  The device-compliance
script is embedded directly from its source in `setup-dev.sh`.
-/

namespace ITSupport

/-- Ticket priority, as submitted through the ticket-creation form. -/
inductive Priority
  | low
  | medium
  | high
  | critical
deriving DecidableEq, Repr, Fintype

/-- Risk level of a remediation plan (blast radius). -/
inductive RiskLevel
  | low
  | medium
  | high
deriving DecidableEq, Repr, Fintype

/-- Numeric rank of a risk level, used to compare against a policy threshold. -/
def RiskLevel.rank : RiskLevel → Nat
  | .low => 0
  | .medium => 1
  | .high => 2

/-- Ticket categories of the fixed enumerated set. -/
inductive Category
  | password_reset
  | account_unlock
  | vpn_issue
  | device_compliance
  | access_request
  | unclassified
deriving DecidableEq, Repr, Fintype

/-- Ticket lifecycle states of the orchestrator state machine. -/
inductive TicketStatus
  | new
  | analyzing
  | diagnosing
  | awaiting_approval
  | in_progress
  | manual_queue
  | resolved
  | failed
  | closed
deriving DecidableEq, Repr, Fintype

/-- AutomationExecution status values. -/
inductive ExecStatus
  | pending
  | running
  | succeeded
  | failed
  | rolled_back
deriving DecidableEq, Repr, Fintype

/-- An execution is non-terminal while it is pending or running. -/
def ExecStatus.nonTerminal : ExecStatus → Bool
  | .pending => true
  | .running => true
  | _ => false

/-- ApprovalRequest status values. -/
inductive ApprovalStatus
  | pending
  | approved
  | rejected
deriving DecidableEq, Repr, Fintype

/-- Modelled from the spec: a remediation plan produced by the diagnosis
engine (the backend diagnosis module is not shipped in the repository). -/
structure Plan where
  action_type : String
  parameter : Option String
  risk_level : RiskLevel
deriving DecidableEq, Repr

/-- Modelled from the spec: per-category automation policy configuration. -/
structure AutomationPolicy where
  risk_threshold : RiskLevel
  auto_approve : Bool
  max_retries : Nat
  timeout_seconds : Nat
deriving DecidableEq, Repr

/-- Outcome of the policy evaluator. -/
inductive PolicyDecision
  | auto_execute
  | requires_approval
deriving DecidableEq, Repr

/-- Modelled from the spec: the policy evaluator.  `requires_approval` when
`plan.risk_level >= policy.risk_threshold` or `policy.auto_approve` is
false, else `auto_execute`; a missing policy for the category defaults to
`requires_approval` (fail-safe, never fail-open). -/
def evaluate (plan : Plan) (policy : Option AutomationPolicy) : PolicyDecision :=
  match policy with
  | none => .requires_approval
  | some pol =>
      if pol.risk_threshold.rank ≤ plan.risk_level.rank || !pol.auto_approve then
        .requires_approval
      else
        .auto_execute

/-- Does the first character list occur at the front of the second? -/
def startsWith : List Char → List Char → Bool
  | [], _ => true
  | _ :: _, [] => false
  | p :: ps, t :: ts => p = t && startsWith ps ts

/-- Does the first character list occur anywhere inside the second? -/
def occursIn (pat : List Char) : List Char → Bool
  | [] => startsWith pat []
  | t :: ts => startsWith pat (t :: ts) || occursIn pat ts

/-- Modelled from the spec: the keyword/phrase pattern table of the
classifier, one ordered set of patterns per category (trigger phrases taken
from the repository documentation). -/
def patternsFor : Category → List String
  | .password_reset => ["password reset", "forgot my password", "reset my password", "cannot login"]
  | .account_unlock => ["account locked", "account is locked", "too many attempts", "unlock my account"]
  | .vpn_issue => ["vpn not working", "cannot connect to vpn", "vpn connection"]
  | .device_compliance => ["updates needed", "compliance check", "compliance issues", "security patches"]
  | .access_request => ["need access to", "permission denied", "access request"]
  | .unclassified => []

/-- Modelled from the spec: fixed category priority order used to break
ties, security-sensitive categories ranking above generic ones. -/
def categoryPriority : List Category :=
  [.account_unlock, .access_request, .password_reset, .vpn_issue, .device_compliance]

/-- Modelled from the spec: minimum confidence floor a category match must
clear for the ticket to be classified. -/
def minConfidenceFloor : Nat := 1

/-- The text the classifier matches on: subject and description joined. -/
def ticketText (subject description : String) : String :=
  subject ++ " " ++ description

/-- Modelled from the spec: classifier confidence score for one category,
a deterministic function of the number of pattern matches in the text. -/
def scoreFor (text : String) (c : Category) : Nat :=
  (patternsFor c).countP (fun p => occursIn p.toList text.toList)

/-- Fold over the category priority list keeping the best-scoring category;
ties keep the earlier (higher-priority) category. -/
def pickBest (text : String) : Category × Nat :=
  categoryPriority.foldl
    (fun best c => if best.2 < scoreFor text c then (c, scoreFor text c) else best)
    (Category.unclassified, 0)

/-- Modelled from the spec: `classify(subject, description)` returns the
best-matching category and its confidence; when no pattern clears the
minimum confidence floor the result is `unclassified` with confidence 0.
Pure function of the input text and the static pattern tables. -/
def classify (subject description : String) : Category × Nat :=
  let best := pickBest (ticketText subject description)
  if best.2 < minConfidenceFloor then (Category.unclassified, 0) else best

/-- Split a character list into whitespace-separated words. -/
def wordsAux (cs : List Char) (acc : List Char) : List (List Char) :=
  match cs with
  | [] => [acc.reverse]
  | c :: rest => if c = ' ' then acc.reverse :: wordsAux rest [] else wordsAux rest (c :: acc)

/-- Modelled from the spec: fixed-format entity recognizer pulling the
affected user email out of the ticket text (first word containing `@`). -/
def extractEmail (text : String) : Option String :=
  ((wordsAux text.toList []).find? (fun w => w.contains '@')).map (fun w => String.mk w)

/-- Does a category require the user-email entity to build a plan?  Every
real remediation category acts on the affected user. -/
def requiresEntity : Category → Bool
  | .unclassified => false
  | _ => true

/-- Modelled from the spec: action type of the static diagnosis table. -/
def actionFor : Category → String
  | .password_reset => "reset_password"
  | .account_unlock => "unlock_account"
  | .vpn_issue => "reset_vpn_profile"
  | .device_compliance => "run_compliance_check"
  | .access_request => "grant_access"
  | .unclassified => ""

/-- Modelled from the spec: risk level of the static diagnosis table
(password reset is low risk, access requests grant new permissions and are
high risk). -/
def riskFor : Category → RiskLevel
  | .password_reset => .low
  | .account_unlock => .low
  | .vpn_issue => .medium
  | .device_compliance => .medium
  | .access_request => .high
  | .unclassified => .high

/-- Modelled from the spec: the diagnosis engine.  `none` (NoPlan) for
`unclassified` or when the category's required entity is missing; otherwise
the static per-category table entry.  Deterministic, side-effect-free, and
it takes no integration adapter. -/
def diagnose (c : Category) (entity : Option String) (_pri : Priority) : Option Plan :=
  match c with
  | .unclassified => none
  | c =>
      match entity with
      | none => none
      | some e => some { action_type := actionFor c, parameter := some e, risk_level := riskFor c }

/-- ApprovalRequest entity. -/
structure ApprovalRequest where
  status : ApprovalStatus
  decided_by : Option String
  decided_at : Option Nat
deriving DecidableEq, Repr

/-- Errors surfaced by the approval workflow. -/
inductive ApprovalError
  | conflict
  | unauthorized
deriving DecidableEq, Repr

/-- Modelled from the spec: deciding an approval request.  Deciding an
already-decided request is a conflict and leaves the request unchanged;
the pending-to-decided transition requires an authorized actor. -/
def decideApproval (isAuthorized : String → Bool) (req : ApprovalRequest)
    (actor : String) (now : Nat) (approve : Bool) :
    ApprovalRequest × Option ApprovalError :=
  if req.status ≠ ApprovalStatus.pending then
    (req, some .conflict)
  else if !isAuthorized actor then
    (req, some .unauthorized)
  else
    ({ status := if approve then .approved else .rejected,
       decided_by := some actor, decided_at := some now }, none)

/-- Modelled from the spec: behaviour of one integration adapter as seen by
the execution engine: an optional capturable before-state, the outcome of
each apply attempt (a timeout counts as a failed attempt), the outcome of a
compensating reverse call (`none` when reversal is unsupported), an opaque
after-state, and whether the notification collaborator succeeds. -/
structure Adapter where
  before_state : Option Nat
  applyOk : Nat → Bool
  reverseOutcome : Option Bool
  after_state : Nat
  notifyOk : Bool

/-- Run apply attempts against the adapter with the given retry budget:
returns the number of attempts used and whether one succeeded.  Attempts
stop at the first success or when the budget is exhausted. -/
def attemptsRun (applyOk : Nat → Bool) : Nat → Nat × Bool
  | 0 => (0, false)
  | n + 1 =>
      if applyOk 0 then (1, true)
      else
        let rest := attemptsRun (fun i => applyOk (i + 1)) n
        (rest.1 + 1, rest.2)

/-- Result of one run of the execution engine: the final execution row
together with the ticket outcome it drives. -/
structure ExecutionResult where
  status : ExecStatus
  attempt_count : Nat
  before_state : Option Nat
  after_state : Option Nat
  error_message : Option String
  ticket_status : TicketStatus
  auto_resolved : Bool
  degraded : Bool
deriving DecidableEq, Repr

/-- Modelled from the spec: the execution engine.  Capture the before-state,
run the action with at most `max_retries` attempts; on success mark the
execution succeeded and the ticket resolved with `auto_resolved` set, and a
notification failure only degrades the success signal; on exhausted retries
attempt rollback from the captured before-state, marking the execution
rolled back when the reverse call succeeds and failed otherwise, with the
ticket failed in either case. -/
def execute (a : Adapter) (pol : AutomationPolicy) : ExecutionResult :=
  let run := attemptsRun a.applyOk pol.max_retries
  if run.2 then
    { status := .succeeded, attempt_count := run.1, before_state := a.before_state,
      after_state := some a.after_state, error_message := none,
      ticket_status := .resolved, auto_resolved := true, degraded := !a.notifyOk }
  else
    match a.before_state, a.reverseOutcome with
    | some b, some true =>
        { status := .rolled_back, attempt_count := run.1, before_state := some b,
          after_state := none, error_message := some "retries exhausted; rolled back",
          ticket_status := .failed, auto_resolved := false, degraded := false }
    | b, _ =>
        { status := .failed, attempt_count := run.1, before_state := b,
          after_state := none, error_message := some "retries exhausted",
          ticket_status := .failed, auto_resolved := false, degraded := false }

/-- Modelled from the spec: the persisted state the orchestrator keeps for
one ticket pipeline: the ticket row, its optional plan and approval
request, the statuses of its AutomationExecution rows (newest first), and a
history flag recording whether the ticket has passed through `analyzing`. -/
structure PipelineState where
  subject : String
  description : String
  priority : Priority
  category : Category
  confidence : Nat
  tstatus : TicketStatus
  auto_resolved : Bool
  plan : Option Plan
  approval : Option ApprovalRequest
  execs : List ExecStatus
  sawAnalyzing : Bool
deriving DecidableEq, Repr

/-- The entity the pipeline extracts for a ticket. -/
def entityOf (s : PipelineState) : Option String :=
  extractEmail (ticketText s.subject s.description)

/-- The state of a freshly created ticket. -/
def initState (subject description : String) (pri : Priority) : PipelineState :=
  { subject := subject, description := description, priority := pri,
    category := .unclassified, confidence := 0, tstatus := .new,
    auto_resolved := false, plan := none, approval := none, execs := [],
    sawAnalyzing := false }

/-- Number of non-terminal AutomationExecution rows. -/
def countNonTerminal (l : List ExecStatus) : Nat :=
  l.countP (fun e => e.nonTerminal)

/-- Modelled from the spec: one step of the orchestrator, parameterized by
the read-only policy table and the authorization predicate.  Exec-creating
steps are guarded by the per-ticket mutual-exclusion check that no
non-terminal execution exists; `reenqueue` models a concurrent duplicate
delivery of the same ticket to a worker. -/
inductive Step (pol : Category → Option AutomationPolicy) (auth : String → Bool) :
    PipelineState → PipelineState → Prop
  | start (s : PipelineState) (h : s.tstatus = .new) :
      Step pol auth s
        { s with tstatus := .analyzing,
                 category := (classify s.subject s.description).1,
                 confidence := (classify s.subject s.description).2,
                 sawAnalyzing := true }
  | toDiagnosing (s : PipelineState) (p : Plan) (h : s.tstatus = .analyzing)
      (hp : diagnose s.category (entityOf s) s.priority = some p) :
      Step pol auth s { s with tstatus := .diagnosing, plan := some p }
  | noPlan (s : PipelineState) (h : s.tstatus = .analyzing)
      (hp : diagnose s.category (entityOf s) s.priority = none) :
      Step pol auth s { s with tstatus := .manual_queue }
  | policyAuto (s : PipelineState) (p : Plan) (h : s.tstatus = .diagnosing)
      (hp : s.plan = some p) (hd : evaluate p (pol s.category) = .auto_execute)
      (hm : countNonTerminal s.execs = 0) :
      Step pol auth s { s with tstatus := .in_progress, execs := .pending :: s.execs }
  | policyGate (s : PipelineState) (p : Plan) (h : s.tstatus = .diagnosing)
      (hp : s.plan = some p) (hd : evaluate p (pol s.category) = .requires_approval) :
      Step pol auth s
        { s with tstatus := .awaiting_approval,
                 approval := some { status := .pending, decided_by := none, decided_at := none } }
  | approve (s : PipelineState) (r : ApprovalRequest) (actor : String) (now : Nat)
      (h : s.tstatus = .awaiting_approval) (hr : s.approval = some r)
      (hrs : r.status = .pending) (ha : auth actor = true)
      (hm : countNonTerminal s.execs = 0) :
      Step pol auth s
        { s with tstatus := .in_progress,
                 approval := some { status := .approved, decided_by := some actor,
                                    decided_at := some now },
                 execs := .pending :: s.execs }
  | reject (s : PipelineState) (r : ApprovalRequest) (actor : String) (now : Nat)
      (h : s.tstatus = .awaiting_approval) (hr : s.approval = some r)
      (hrs : r.status = .pending) (ha : auth actor = true) :
      Step pol auth s
        { s with tstatus := .manual_queue,
                 approval := some { status := .rejected, decided_by := some actor,
                                    decided_at := some now } }
  | reenqueue (s : PipelineState) (h : s.tstatus = .in_progress)
      (hm : countNonTerminal s.execs = 0) :
      Step pol auth s { s with execs := .pending :: s.execs }
  | execStart (s : PipelineState) (rest : List ExecStatus)
      (h : s.tstatus = .in_progress) (hr : s.execs = .pending :: rest) :
      Step pol auth s { s with execs := .running :: rest }
  | execSucceed (s : PipelineState) (rest : List ExecStatus)
      (h : s.tstatus = .in_progress) (hr : s.execs = .running :: rest) :
      Step pol auth s
        { s with tstatus := .resolved, auto_resolved := true, execs := .succeeded :: rest }
  | execRetry (s : PipelineState) (rest : List ExecStatus)
      (h : s.tstatus = .in_progress) (hr : s.execs = .running :: rest) :
      Step pol auth s { s with execs := .pending :: rest }
  | execRolledBack (s : PipelineState) (rest : List ExecStatus)
      (h : s.tstatus = .in_progress) (hr : s.execs = .running :: rest) :
      Step pol auth s { s with tstatus := .failed, execs := .rolled_back :: rest }
  | execFailed (s : PipelineState) (rest : List ExecStatus)
      (h : s.tstatus = .in_progress) (hr : s.execs = .running :: rest) :
      Step pol auth s { s with tstatus := .failed, execs := .failed :: rest }
  | userClose (s : PipelineState) (h : s.tstatus ≠ .closed) :
      Step pol auth s { s with tstatus := .closed }

/-- States reachable by the orchestrator from a given start state. -/
def Reachable (pol : Category → Option AutomationPolicy) (auth : String → Bool)
    (s0 s : PipelineState) : Prop :=
  Relation.ReflTransGen (Step pol auth) s0 s

/-- The edges of the ticket state machine in the spec: the pipeline chain
with `diagnosing` optional, `manual_queue` from `analyzing` or
`awaiting_approval`, and `closed` from any state by explicit user action. -/
def allowedEdge : TicketStatus → TicketStatus → Bool
  | .closed, _ => false
  | _, .closed => true
  | .new, .analyzing => true
  | .analyzing, .diagnosing => true
  | .analyzing, .awaiting_approval => true
  | .analyzing, .in_progress => true
  | .analyzing, .manual_queue => true
  | .diagnosing, .awaiting_approval => true
  | .diagnosing, .in_progress => true
  | .awaiting_approval, .in_progress => true
  | .awaiting_approval, .manual_queue => true
  | .in_progress, .resolved => true
  | .in_progress, .failed => true
  | _, _ => false

/-- Pipeline states later than `analyzing` (excluding the user-driven
`closed` override). -/
def laterState : TicketStatus → Bool
  | .diagnosing => true
  | .awaiting_approval => true
  | .in_progress => true
  | .manual_queue => true
  | .resolved => true
  | .failed => true
  | _ => false

/-- The inductive invariant of the orchestrator used to settle the
reachability claims. -/
structure Inv (pol : Category → Option AutomationPolicy) (s : PipelineState) : Prop where
  mutex : countNonTerminal s.execs ≤ 1
  newClean : s.tstatus = .new → s.execs = [] ∧ s.approval = none ∧ s.plan = none
  preExecClean : s.tstatus = .analyzing ∨ s.tstatus = .diagnosing →
      s.execs = [] ∧ s.approval = none
  gatedNoExec : ∀ r, s.approval = some r → r.status ≠ .approved → s.execs = []
  rejectedManual : ∀ r, s.approval = some r → r.status = .rejected →
      s.tstatus = .manual_queue ∨ s.tstatus = .closed
  unclassifiedNoAuto : s.category = .unclassified →
      s.execs = [] ∧ s.plan = none ∧ s.approval = none ∧
      (s.tstatus = .new ∨ s.tstatus = .analyzing ∨ s.tstatus = .manual_queue ∨
        s.tstatus = .closed)
  analyzed : s.tstatus ≠ .new → s.tstatus = .closed ∨ s.sawAnalyzing = true
  execsLate : s.execs ≠ [] → s.tstatus = .in_progress ∨ s.tstatus = .resolved ∨
      s.tstatus = .failed ∨ s.tstatus = .closed
  inProgressHasExec : s.tstatus = .in_progress → s.execs ≠ []
  autoPath : s.execs ≠ [] → s.approval = none →
      ∃ p, s.plan = some p ∧ evaluate p (pol s.category) = .auto_execute

/-- The machine facts the device-compliance PowerShell script inspects
(embedded in `setup-dev.sh`): update age, Defender state, firewall
profiles, BitLocker state, plus whether the run raises a terminating
exception (with its message) and how many findings were recorded before it
was raised. -/
structure DeviceEnv where
  daysSinceUpdate : Nat
  updatesAvailable : Nat
  updateScanFails : Bool
  defenderPresent : Bool
  antivirusEnabled : Bool
  signatureAgeDays : Nat
  sigUpdateFails : Bool
  firewallProfiles : List (String × Bool)
  bitlockerPresent : Bool
  bitlockerProtectionOn : Bool
  exception : Option String
  cutoff : Nat
deriving DecidableEq, Repr

/-- The `$result` object the device-compliance script emits as JSON. -/
structure DeviceComplianceResult where
  success : Bool
  compliance_status : String
  issues : List String
  actions_taken : List String
  error : Option String
deriving DecidableEq, Repr

/-- The issues the device-compliance script appends, in script order:
stale Windows updates, Defender disabled, stale antivirus signatures, each
disabled firewall profile, and BitLocker protection off. -/
def complianceIssues (env : DeviceEnv) : List String :=
  (if 30 < env.daysSinceUpdate then ["Windows updates missing"] else []) ++
  (if env.defenderPresent && !env.antivirusEnabled then ["Windows Defender is disabled"] else []) ++
  (if env.defenderPresent && 7 < env.signatureAgeDays then ["Antivirus signatures outdated"] else []) ++
  env.firewallProfiles.filterMap
    (fun pr => if pr.2 then none else some ("Firewall disabled for profile: " ++ pr.1)) ++
  (if env.bitlockerPresent && !env.bitlockerProtectionOn then ["BitLocker encryption not enabled"] else [])

/-- The remediation actions the script records while checking. -/
def complianceActions (env : DeviceEnv) : List String :=
  (if 30 < env.daysSinceUpdate then
    (if env.updateScanFails then ["Windows Update check initiated (automated installation pending)"]
     else if 0 < env.updatesAvailable then ["Triggered Windows Update scan"] else [])
   else []) ++
  (if env.defenderPresent && 7 < env.signatureAgeDays then
    (if env.sigUpdateFails then ["Attempted antivirus signature update"]
     else ["Updated antivirus signatures"])
   else [])

/-- The device-compliance check, from the PowerShell in `setup-dev.sh`:
`$result` starts with `success = $false` and `compliance_status = unknown`;
when the checks complete, the status is `compliant` for no issues,
`minor_issues` for at most two, `non_compliant` otherwise, with
`success = $true` in all three branches; a terminating exception is caught,
recording its message in `error` and leaving `success = $false`. -/
def checkDeviceCompliance (env : DeviceEnv) : DeviceComplianceResult :=
  match env.exception with
  | some msg =>
      { success := false, compliance_status := "unknown",
        issues := (complianceIssues env).take env.cutoff,
        actions_taken := (complianceActions env).take env.cutoff,
        error := some msg }
  | none =>
      let issues := complianceIssues env
      { success := true,
        compliance_status :=
          if issues.isEmpty then "compliant"
          else if issues.length ≤ 2 then "minor_issues"
          else "non_compliant",
        issues := issues, actions_taken := complianceActions env, error := none }

/-- Demonstration policy table gating every category at the high risk
threshold. -/
def gatedPolicies : Category → Option AutomationPolicy :=
  fun _ => some { risk_threshold := .high, auto_approve := true, max_retries := 3,
                  timeout_seconds := 30 }

/-- Demonstration authorization predicate accepting every actor. -/
def allAuthorized : String → Bool := fun _ => true

/-- Demonstration run, step 0: a high-risk access request is created. -/
def gatedDemo0 : PipelineState :=
  initState "need access to finance share for user@co.example" "permission denied" Priority.high

/-- Demonstration run, step 1: the ticket is classified. -/
def gatedDemo1 : PipelineState :=
  { gatedDemo0 with tstatus := .analyzing,
                    category := (classify gatedDemo0.subject gatedDemo0.description).1,
                    confidence := (classify gatedDemo0.subject gatedDemo0.description).2,
                    sawAnalyzing := true }

/-- The plan diagnosis produces for the demonstration access request. -/
def gatedPlan : Plan :=
  { action_type := "grant_access", parameter := some "user@co.example", risk_level := .high }

/-- Demonstration run, step 2: diagnosis produces the high-risk plan. -/
def gatedDemo2 : PipelineState :=
  { gatedDemo1 with tstatus := .diagnosing, plan := some gatedPlan }

/-- Demonstration run, step 3: policy gates the plan behind approval. -/
def gatedDemo3 : PipelineState :=
  { gatedDemo2 with tstatus := .awaiting_approval,
                    approval := some { status := .pending, decided_by := none,
                                       decided_at := none } }

/-- Demonstration run, step 4: the approval request is rejected. -/
def gatedDemo4 : PipelineState :=
  { gatedDemo3 with tstatus := .manual_queue,
                    approval := some { status := .rejected, decided_by := some "boss",
                                       decided_at := some 7 } }

/-- Demonstration run: an unclassifiable ticket, freshly created. -/
def unclDemo0 : PipelineState := initState "hello" "world" Priority.low

/-- Demonstration run: the unclassifiable ticket after classification. -/
def unclDemo1 : PipelineState :=
  { unclDemo0 with tstatus := .analyzing,
                   category := (classify unclDemo0.subject unclDemo0.description).1,
                   confidence := (classify unclDemo0.subject unclDemo0.description).2,
                   sawAnalyzing := true }

/-- Demonstration run: the unclassifiable ticket routed to the manual
queue. -/
def unclDemo2 : PipelineState :=
  { unclDemo1 with tstatus := .manual_queue }

theorem attemptsRun_fst_le (n : Nat) : ∀ f : Nat → Bool, (attemptsRun f n).1 ≤ n := by
  induction n with
  | zero => intro f; simp [attemptsRun]
  | succ n ih =>
      intro f
      by_cases h : f 0 = true
      · simp [attemptsRun, h]
      · simp only [attemptsRun, h, Bool.false_eq_true, if_false]
        exact Nat.succ_le_succ (ih _)

/-- C1: with a configured policy, `evaluate` returns `requires_approval`
exactly when the plan risk is at or above the policy threshold or the
policy does not auto-approve, and `auto_execute` otherwise; with no
configured policy for the category it returns `requires_approval`. -/
theorem evaluate_requires_approval_iff (plan : Plan) :
    (∀ pol : AutomationPolicy,
      (evaluate plan (some pol) = .requires_approval ↔
        pol.risk_threshold.rank ≤ plan.risk_level.rank ∨ pol.auto_approve = false) ∧
      (evaluate plan (some pol) = .auto_execute ↔
        ¬(pol.risk_threshold.rank ≤ plan.risk_level.rank ∨ pol.auto_approve = false))) ∧
    evaluate plan none = .requires_approval := by
  refine ⟨fun pol => ?_, rfl⟩
  unfold evaluate
  by_cases h : pol.risk_threshold.rank ≤ plan.risk_level.rank || !pol.auto_approve
  · simp only [h, if_true]
    simp only [Bool.or_eq_true, decide_eq_true_eq, Bool.not_eq_true'] at h
    constructor
    · simp [h]
    · simp [h]
  · simp only [h, if_false]
    simp only [Bool.or_eq_true, decide_eq_true_eq, Bool.not_eq_true'] at h
    push_neg at h
    constructor
    · simp [h.1, h.2]
    · simp [h.1, h.2]

/-- C8: deciding an already-decided approval request is reported as a
conflict and leaves the request's status, decided_by and decided_at
unchanged; a decision that goes through implies the request was pending and
the actor authorized, and approving records the actor and time. -/
theorem decideApproval_spec (isAuthorized : String → Bool) (req : ApprovalRequest)
    (actor : String) (now : Nat) (approve : Bool) :
    (req.status ≠ .pending →
      decideApproval isAuthorized req actor now approve = (req, some .conflict)) ∧
    (∀ req2, decideApproval isAuthorized req actor now approve = (req2, none) →
      req.status = .pending ∧ isAuthorized actor = true ∧
      req2.decided_by = some actor ∧ req2.decided_at = some now ∧
      (approve = true → req2.status = .approved)) := by
  constructor
  · intro h
    unfold decideApproval
    rw [if_pos h]
  · intro req2 h
    unfold decideApproval at h
    by_cases hp : req.status = ApprovalStatus.pending
    · by_cases ha : isAuthorized actor = true
      · rw [if_neg (by simp [hp]), if_neg (by simp [ha])] at h
        injection h with h1 h2
        subst h1
        refine ⟨hp, ha, rfl, rfl, ?_⟩
        intro hap
        simp [hap]
      · rw [if_neg (by simp [hp]),
            if_pos (by
              cases hb : isAuthorized actor with
              | false => simp [hb]
              | true => exact absurd hb ha)] at h
        injection h with h1 h2
        simp at h2
    · rw [if_pos hp] at h
      injection h with h1 h2
      simp at h2

theorem decideApproval_spec_witness :
    decideApproval (fun _ => true)
      { status := .approved, decided_by := none, decided_at := none } "alice" 5 true =
      ({ status := .approved, decided_by := none, decided_at := none }, some .conflict) :=
  (decideApproval_spec (fun _ => true)
    { status := .approved, decided_by := none, decided_at := none } "alice" 5 true).1
    (by decide)

/-- C4: an execution's attempt count never exceeds the governing policy's
max_retries, and when the retry budget is exhausted without success the
final status is rolled_back or failed — never succeeded — and the ticket
transitions to failed rather than resolved. -/
theorem execute_retry_bound (a : Adapter) (pol : AutomationPolicy) :
    (execute a pol).attempt_count ≤ pol.max_retries ∧
    ((execute a pol).status ≠ .succeeded →
      ((execute a pol).status = .rolled_back ∨ (execute a pol).status = .failed) ∧
      (execute a pol).ticket_status = .failed) := by
  have hle := attemptsRun_fst_le pol.max_retries a.applyOk
  unfold execute
  by_cases hok : (attemptsRun a.applyOk pol.max_retries).2 = true
  · simp only [hok, if_true]
    exact ⟨hle, fun hcon => absurd rfl hcon⟩
  · simp only [hok, Bool.false_eq_true, if_false]
    rcases hb : a.before_state with _ | b
    · exact ⟨hle, fun _ => ⟨Or.inr rfl, rfl⟩⟩
    · rcases hrv : a.reverseOutcome with _ | rv
      · exact ⟨hle, fun _ => ⟨Or.inr rfl, rfl⟩⟩
      · cases rv
        · exact ⟨hle, fun _ => ⟨Or.inr rfl, rfl⟩⟩
        · exact ⟨hle, fun _ => ⟨Or.inl rfl, rfl⟩⟩

theorem execute_retry_bound_witness :
    (execute { before_state := none, applyOk := fun _ => false, reverseOutcome := none,
               after_state := 0, notifyOk := true }
        { risk_threshold := .low, auto_approve := true, max_retries := 3,
          timeout_seconds := 30 }).attempt_count ≤ 3 ∧
    ((execute { before_state := none, applyOk := fun _ => false, reverseOutcome := none,
                after_state := 0, notifyOk := true }
        { risk_threshold := .low, auto_approve := true, max_retries := 3,
          timeout_seconds := 30 }).status = .rolled_back ∨
      (execute { before_state := none, applyOk := fun _ => false, reverseOutcome := none,
                 after_state := 0, notifyOk := true }
        { risk_threshold := .low, auto_approve := true, max_retries := 3,
          timeout_seconds := 30 }).status = .failed) ∧
    (execute { before_state := none, applyOk := fun _ => false, reverseOutcome := none,
               after_state := 0, notifyOk := true }
        { risk_threshold := .low, auto_approve := true, max_retries := 3,
          timeout_seconds := 30 }).ticket_status = .failed := by
  have h := execute_retry_bound
    { before_state := none, applyOk := fun _ => false, reverseOutcome := none,
      after_state := 0, notifyOk := true }
    { risk_threshold := .low, auto_approve := true, max_retries := 3, timeout_seconds := 30 }
  have h2 := h.2 (by decide)
  exact ⟨h.1, h2.1, h2.2⟩

/-- C9: when an execution succeeds, a failure of the notification
collaborator changes neither the execution's succeeded status nor the
ticket's resolved status and auto_resolved flag; it is surfaced only as a
degraded-success signal. -/
theorem notify_failure_frame (a : Adapter) (pol : AutomationPolicy)
    (h : (execute { a with notifyOk := true } pol).status = .succeeded) :
    (execute { a with notifyOk := false } pol).status = .succeeded ∧
    (execute { a with notifyOk := false } pol).ticket_status = .resolved ∧
    (execute { a with notifyOk := false } pol).auto_resolved = true ∧
    (execute { a with notifyOk := false } pol).attempt_count =
      (execute { a with notifyOk := true } pol).attempt_count ∧
    (execute { a with notifyOk := false } pol).degraded = true := by
  by_cases hok : (attemptsRun a.applyOk pol.max_retries).2 = true
  · unfold execute
    simp only [hok, if_true]
    refine ⟨?_, ?_, ?_, ?_, ?_⟩ <;> trivial
  · exfalso
    unfold execute at h
    simp only [hok, Bool.false_eq_true, if_false] at h
    rcases hb : a.before_state with _ | b <;> rcases hrv : a.reverseOutcome with _ | rv
    · rw [hb, hrv] at h
      simp at h
    · rw [hb, hrv] at h
      cases rv <;> simp at h
    · rw [hb, hrv] at h
      simp at h
    · rw [hb, hrv] at h
      cases rv <;> simp at h

theorem notify_failure_frame_witness :
    (execute { before_state := none, applyOk := fun _ => true, reverseOutcome := none,
               after_state := 0, notifyOk := false }
        { risk_threshold := .low, auto_approve := true, max_retries := 1,
          timeout_seconds := 30 }).status = .succeeded ∧
    (execute { before_state := none, applyOk := fun _ => true, reverseOutcome := none,
               after_state := 0, notifyOk := false }
        { risk_threshold := .low, auto_approve := true, max_retries := 1,
          timeout_seconds := 30 }).ticket_status = .resolved ∧
    (execute { before_state := none, applyOk := fun _ => true, reverseOutcome := none,
               after_state := 0, notifyOk := false }
        { risk_threshold := .low, auto_approve := true, max_retries := 1,
          timeout_seconds := 30 }).auto_resolved = true ∧
    (execute { before_state := none, applyOk := fun _ => true, reverseOutcome := none,
               after_state := 0, notifyOk := false }
        { risk_threshold := .low, auto_approve := true, max_retries := 1,
          timeout_seconds := 30 }).degraded = true := by
  have h := notify_failure_frame
    { before_state := none, applyOk := fun _ => true, reverseOutcome := none,
      after_state := 0, notifyOk := true }
    { risk_threshold := .low, auto_approve := true, max_retries := 1, timeout_seconds := 30 }
    rfl
  exact ⟨h.1, h.2.1, h.2.2.1, h.2.2.2.2⟩

/-- C10: a run of the device-compliance script that raises no exception
emits success = true with compliance_status determined exactly by the
number of detected issues — compliant for none, minor_issues for one or
two, non_compliant for more — and a run that raises an exception emits
success = false with the exception message in error. -/
theorem checkDeviceCompliance_spec (env : DeviceEnv) :
    (env.exception = none →
      (checkDeviceCompliance env).success = true ∧
      (complianceIssues env = [] →
        (checkDeviceCompliance env).compliance_status = "compliant") ∧
      (complianceIssues env ≠ [] → (complianceIssues env).length ≤ 2 →
        (checkDeviceCompliance env).compliance_status = "minor_issues") ∧
      (2 < (complianceIssues env).length →
        (checkDeviceCompliance env).compliance_status = "non_compliant")) ∧
    (∀ msg, env.exception = some msg →
      (checkDeviceCompliance env).success = false ∧
      (checkDeviceCompliance env).error = some msg) := by
  constructor
  · intro hnone
    unfold checkDeviceCompliance
    rw [hnone]
    refine ⟨rfl, ?_, ?_, ?_⟩
    · intro hi
      simp [hi]
    · intro hne hlen
      rcases hI : complianceIssues env with _ | ⟨x, xs⟩
      · exact absurd hI hne
      · rw [hI, List.length_cons] at hlen
        simp [hI]
        omega
    · intro hgt
      rcases hI : complianceIssues env with _ | ⟨x, xs⟩
      · rw [hI] at hgt
        simp at hgt
      · rw [hI, List.length_cons] at hgt
        simp [hI]
        omega
  · intro msg hmsg
    unfold checkDeviceCompliance
    rw [hmsg]
    exact ⟨rfl, rfl⟩

theorem checkDeviceCompliance_spec_witness :
    (checkDeviceCompliance
      { daysSinceUpdate := 45, updatesAvailable := 3, updateScanFails := false,
        defenderPresent := true, antivirusEnabled := false, signatureAgeDays := 10,
        sigUpdateFails := false, firewallProfiles := [("Domain", false)],
        bitlockerPresent := true, bitlockerProtectionOn := false,
        exception := none, cutoff := 0 }).success = true ∧
    (checkDeviceCompliance
      { daysSinceUpdate := 45, updatesAvailable := 3, updateScanFails := false,
        defenderPresent := true, antivirusEnabled := false, signatureAgeDays := 10,
        sigUpdateFails := false, firewallProfiles := [("Domain", false)],
        bitlockerPresent := true, bitlockerProtectionOn := false,
        exception := none, cutoff := 0 }).compliance_status = "non_compliant" := by
  have h := (checkDeviceCompliance_spec
    { daysSinceUpdate := 45, updatesAvailable := 3, updateScanFails := false,
      defenderPresent := true, antivirusEnabled := false, signatureAgeDays := 10,
      sigUpdateFails := false, firewallProfiles := [("Domain", false)],
      bitlockerPresent := true, bitlockerProtectionOn := false,
      exception := none, cutoff := 0 }).1 rfl
  exact ⟨h.1, h.2.2.2 (by decide)⟩

theorem countNonTerminal_cons (e : ExecStatus) (l : List ExecStatus) :
    countNonTerminal (e :: l) = countNonTerminal l + (if e.nonTerminal then 1 else 0) := by
  simp [countNonTerminal, List.countP_cons]

theorem inv_init (pol : Category → Option AutomationPolicy)
    (subject description : String) (pri : Priority) :
    Inv pol (initState subject description pri) := by
  refine ⟨?_, ?_, ?_, ?_, ?_, ?_, ?_, ?_, ?_, ?_⟩
  · exact Nat.zero_le 1
  · exact fun _ => ⟨rfl, rfl, rfl⟩
  · exact fun _ => ⟨rfl, rfl⟩
  · exact fun r _ _ => rfl
  · exact fun r hr _ => Option.noConfusion hr
  · exact fun _ => ⟨rfl, rfl, rfl, Or.inl rfl⟩
  · exact fun hcon => absurd rfl hcon
  · exact fun hne => absurd rfl hne
  · exact fun hcon => absurd hcon (by simp [initState])
  · exact fun hne _ => absurd rfl hne

theorem inv_step {pol : Category → Option AutomationPolicy} {auth : String → Bool}
    {s s' : PipelineState} (hstep : Step pol auth s s') (hi : Inv pol s) : Inv pol s' := by
  cases hstep with
  | start h =>
      obtain ⟨hex, happ, hplan⟩ := hi.newClean h
      refine ⟨?_, ?_, ?_, ?_, ?_, ?_, ?_, ?_, ?_, ?_⟩
      · exact hi.mutex
      · exact fun hcon => absurd hcon (by simp [initState])
      · exact fun _ => ⟨hex, happ⟩
      · exact fun r _ _ => hex
      · intro r hr hrs
        have hr2 : s.approval = some r := hr
        rw [happ] at hr2
        exact Option.noConfusion hr2
      · exact fun _ => ⟨hex, hplan, happ, Or.inr (Or.inl rfl)⟩
      · exact fun _ => Or.inr rfl
      · exact fun hne => absurd hex hne
      · exact fun hcon => absurd hcon (by simp [initState])
      · exact fun hne _ => absurd hex hne
  | toDiagnosing p h hp =>
      obtain ⟨hex, happ⟩ := hi.preExecClean (Or.inl h)
      refine ⟨?_, ?_, ?_, ?_, ?_, ?_, ?_, ?_, ?_, ?_⟩
      · exact hi.mutex
      · exact fun hcon => absurd hcon (by simp [initState])
      · exact fun _ => ⟨hex, happ⟩
      · exact fun r _ _ => hex
      · intro r hr hrs
        have hr2 : s.approval = some r := hr
        rw [happ] at hr2
        exact Option.noConfusion hr2
      · intro hc
        have hc2 : s.category = Category.unclassified := hc
        rw [hc2] at hp
        exact Option.noConfusion hp
      · intro _
        rcases hi.analyzed (by rw [h]; decide) with hcl | hsaw
        · rw [h] at hcl
          exact absurd hcl (by decide)
        · exact Or.inr hsaw
      · exact fun hne => absurd hex hne
      · exact fun hcon => absurd hcon (by simp [initState])
      · exact fun hne _ => absurd hex hne
  | noPlan h hp =>
      obtain ⟨hex, happ⟩ := hi.preExecClean (Or.inl h)
      refine ⟨?_, ?_, ?_, ?_, ?_, ?_, ?_, ?_, ?_, ?_⟩
      · exact hi.mutex
      · exact fun hcon => absurd hcon (by simp [initState])
      · rintro (hc | hc) <;> exact absurd hc (by simp)
      · exact fun r _ _ => hex
      · exact fun r _ _ => Or.inl rfl
      · intro hc
        have h6 := hi.unclassifiedNoAuto hc
        exact ⟨h6.1, h6.2.1, h6.2.2.1, Or.inr (Or.inr (Or.inl rfl))⟩
      · intro _
        rcases hi.analyzed (by rw [h]; decide) with hcl | hsaw
        · rw [h] at hcl
          exact absurd hcl (by decide)
        · exact Or.inr hsaw
      · exact fun hne => absurd hex hne
      · exact fun hcon => absurd hcon (by simp [initState])
      · exact fun hne _ => absurd hex hne
  | policyAuto p h hp hd hm =>
      obtain ⟨hex, happ⟩ := hi.preExecClean (Or.inr h)
      refine ⟨?_, ?_, ?_, ?_, ?_, ?_, ?_, ?_, ?_, ?_⟩
      · show countNonTerminal (ExecStatus.pending :: s.execs) ≤ 1
        rw [countNonTerminal_cons, hm]
        decide
      · exact fun hcon => absurd hcon (by simp [initState])
      · rintro (hc | hc) <;> exact absurd hc (by simp)
      · intro r hr hrs
        have hr2 : s.approval = some r := hr
        rw [happ] at hr2
        exact Option.noConfusion hr2
      · intro r hr hrs
        have hr2 : s.approval = some r := hr
        rw [happ] at hr2
        exact Option.noConfusion hr2
      · intro hc
        rcases (hi.unclassifiedNoAuto hc).2.2.2 with hx | hx | hx | hx <;>
          (rw [h] at hx; exact absurd hx (by decide))
      · intro _
        rcases hi.analyzed (by rw [h]; decide) with hcl | hsaw
        · rw [h] at hcl
          exact absurd hcl (by decide)
        · exact Or.inr hsaw
      · exact fun _ => Or.inl rfl
      · exact fun _ => List.cons_ne_nil _ _
      · exact fun _ _ => ⟨p, hp, hd⟩
  | policyGate p h hp hd =>
      obtain ⟨hex, happ⟩ := hi.preExecClean (Or.inr h)
      refine ⟨?_, ?_, ?_, ?_, ?_, ?_, ?_, ?_, ?_, ?_⟩
      · exact hi.mutex
      · exact fun hcon => absurd hcon (by simp [initState])
      · rintro (hc | hc) <;> exact absurd hc (by simp)
      · exact fun r _ _ => hex
      · intro r hr hrs
        have hr2 : some (⟨ApprovalStatus.pending, none, none⟩ : ApprovalRequest) = some r := hr
        injection hr2 with h1
        rw [← h1] at hrs
        exact absurd hrs (by decide)
      · intro hc
        rcases (hi.unclassifiedNoAuto hc).2.2.2 with hx | hx | hx | hx <;>
          (rw [h] at hx; exact absurd hx (by decide))
      · intro _
        rcases hi.analyzed (by rw [h]; decide) with hcl | hsaw
        · rw [h] at hcl
          exact absurd hcl (by decide)
        · exact Or.inr hsaw
      · exact fun hne => absurd hex hne
      · exact fun hcon => absurd hcon (by simp [initState])
      · exact fun hne _ => absurd hex hne
  | approve r actor now h hr hrs ha hm =>
      have hex : s.execs = [] := hi.gatedNoExec r hr (by rw [hrs]; decide)
      refine ⟨?_, ?_, ?_, ?_, ?_, ?_, ?_, ?_, ?_, ?_⟩
      · show countNonTerminal (ExecStatus.pending :: s.execs) ≤ 1
        rw [countNonTerminal_cons, hm]
        decide
      · exact fun hcon => absurd hcon (by simp [initState])
      · rintro (hc | hc) <;> exact absurd hc (by simp)
      · intro r2 hr2 hrs2
        have hr3 : some (⟨ApprovalStatus.approved, some actor, some now⟩ : ApprovalRequest) = some r2 := hr2
        injection hr3 with h1
        rw [← h1] at hrs2
        exact absurd rfl hrs2
      · intro r2 hr2 hrs2
        have hr3 : some (⟨ApprovalStatus.approved, some actor, some now⟩ : ApprovalRequest) = some r2 := hr2
        injection hr3 with h1
        rw [← h1] at hrs2
        exact absurd hrs2 (by simp)
      · intro hc
        rcases (hi.unclassifiedNoAuto hc).2.2.2 with hx | hx | hx | hx <;>
          (rw [h] at hx; exact absurd hx (by decide))
      · intro _
        rcases hi.analyzed (by rw [h]; decide) with hcl | hsaw
        · rw [h] at hcl
          exact absurd hcl (by decide)
        · exact Or.inr hsaw
      · exact fun _ => Or.inl rfl
      · exact fun _ => List.cons_ne_nil _ _
      · intro _ happ2
        have happ3 : some (⟨ApprovalStatus.approved, some actor, some now⟩ : ApprovalRequest) = none := happ2
        exact Option.noConfusion happ3
  | reject r actor now h hr hrs ha =>
      have hex : s.execs = [] := hi.gatedNoExec r hr (by rw [hrs]; decide)
      refine ⟨?_, ?_, ?_, ?_, ?_, ?_, ?_, ?_, ?_, ?_⟩
      · exact hi.mutex
      · exact fun hcon => absurd hcon (by simp [initState])
      · rintro (hc | hc) <;> exact absurd hc (by simp)
      · exact fun r2 _ _ => hex
      · exact fun r2 _ _ => Or.inl rfl
      · intro hc
        rcases (hi.unclassifiedNoAuto hc).2.2.2 with hx | hx | hx | hx <;>
          (rw [h] at hx; exact absurd hx (by decide))
      · intro _
        rcases hi.analyzed (by rw [h]; decide) with hcl | hsaw
        · rw [h] at hcl
          exact absurd hcl (by decide)
        · exact Or.inr hsaw
      · exact fun hne => absurd hex hne
      · exact fun hcon => absurd hcon (by simp [initState])
      · exact fun hne _ => absurd hex hne
  | reenqueue h hm =>
      refine ⟨?_, ?_, ?_, ?_, ?_, ?_, ?_, ?_, ?_, ?_⟩
      · show countNonTerminal (ExecStatus.pending :: s.execs) ≤ 1
        rw [countNonTerminal_cons, hm]
        decide
      · exact fun hcon => absurd (h.symm.trans hcon) (by decide)
      · rintro (hc | hc) <;> exact absurd (h.symm.trans hc) (by decide)
      · intro r hr hrs
        exact absurd (hi.gatedNoExec r hr hrs) (hi.inProgressHasExec h)
      · exact fun r hr hrs => hi.rejectedManual r hr hrs
      · intro hc
        rcases (hi.unclassifiedNoAuto hc).2.2.2 with hx | hx | hx | hx <;>
          exact absurd (hx.symm.trans h) (by decide)
      · intro _
        exact hi.analyzed (fun hcon => absurd (hcon.symm.trans h) (by decide))
      · exact fun _ => Or.inl h
      · exact fun _ => List.cons_ne_nil _ _
      · exact fun _ happ2 => hi.autoPath (hi.inProgressHasExec h) happ2
  | execStart rest h hr =>
      refine ⟨?_, ?_, ?_, ?_, ?_, ?_, ?_, ?_, ?_, ?_⟩
      · have h1 := hi.mutex
        rw [hr, countNonTerminal_cons] at h1
        show countNonTerminal (ExecStatus.running :: rest) ≤ 1
        rw [countNonTerminal_cons]
        simp [ExecStatus.nonTerminal] at h1 ⊢
        omega
      · exact fun hcon => absurd (h.symm.trans hcon) (by decide)
      · rintro (hc | hc) <;> exact absurd (h.symm.trans hc) (by decide)
      · intro r hr2 hrs
        exact absurd (hi.gatedNoExec r hr2 hrs) (by rw [hr]; simp)
      · exact fun r hr2 hrs => hi.rejectedManual r hr2 hrs
      · intro hc
        exact absurd (hi.unclassifiedNoAuto hc).1 (by rw [hr]; simp)
      · intro _
        exact hi.analyzed (fun hcon => absurd (hcon.symm.trans h) (by decide))
      · exact fun _ => Or.inl h
      · exact fun _ => List.cons_ne_nil _ _
      · exact fun _ happ2 => hi.autoPath (by rw [hr]; simp) happ2
  | execSucceed rest h hr =>
      refine ⟨?_, ?_, ?_, ?_, ?_, ?_, ?_, ?_, ?_, ?_⟩
      · have h1 := hi.mutex
        rw [hr, countNonTerminal_cons] at h1
        show countNonTerminal (ExecStatus.succeeded :: rest) ≤ 1
        rw [countNonTerminal_cons]
        simp [ExecStatus.nonTerminal] at h1 ⊢
        omega
      · exact fun hcon => absurd hcon (by simp [initState])
      · rintro (hc | hc) <;> exact absurd hc (by simp)
      · intro r hr2 hrs
        exact absurd (hi.gatedNoExec r hr2 hrs) (by rw [hr]; simp)
      · intro r hr2 hrs
        exact absurd (hi.gatedNoExec r hr2 (by rw [hrs]; decide)) (by rw [hr]; simp)
      · intro hc
        exact absurd (hi.unclassifiedNoAuto hc).1 (by rw [hr]; simp)
      · intro _
        rcases hi.analyzed (fun hcon => absurd (hcon.symm.trans h) (by decide)) with hcl | hsaw
        · exact absurd (hcl.symm.trans h) (by decide)
        · exact Or.inr hsaw
      · exact fun _ => Or.inr (Or.inl rfl)
      · exact fun hcon => absurd hcon (by simp [initState])
      · exact fun _ happ2 => hi.autoPath (by rw [hr]; simp) happ2
  | execRetry rest h hr =>
      refine ⟨?_, ?_, ?_, ?_, ?_, ?_, ?_, ?_, ?_, ?_⟩
      · have h1 := hi.mutex
        rw [hr, countNonTerminal_cons] at h1
        show countNonTerminal (ExecStatus.pending :: rest) ≤ 1
        rw [countNonTerminal_cons]
        simp [ExecStatus.nonTerminal] at h1 ⊢
        omega
      · exact fun hcon => absurd (h.symm.trans hcon) (by decide)
      · rintro (hc | hc) <;> exact absurd (h.symm.trans hc) (by decide)
      · intro r hr2 hrs
        exact absurd (hi.gatedNoExec r hr2 hrs) (by rw [hr]; simp)
      · exact fun r hr2 hrs => hi.rejectedManual r hr2 hrs
      · intro hc
        exact absurd (hi.unclassifiedNoAuto hc).1 (by rw [hr]; simp)
      · intro _
        exact hi.analyzed (fun hcon => absurd (hcon.symm.trans h) (by decide))
      · exact fun _ => Or.inl h
      · exact fun _ => List.cons_ne_nil _ _
      · exact fun _ happ2 => hi.autoPath (by rw [hr]; simp) happ2
  | execRolledBack rest h hr =>
      refine ⟨?_, ?_, ?_, ?_, ?_, ?_, ?_, ?_, ?_, ?_⟩
      · have h1 := hi.mutex
        rw [hr, countNonTerminal_cons] at h1
        show countNonTerminal (ExecStatus.rolled_back :: rest) ≤ 1
        rw [countNonTerminal_cons]
        simp [ExecStatus.nonTerminal] at h1 ⊢
        omega
      · exact fun hcon => absurd hcon (by simp [initState])
      · rintro (hc | hc) <;> exact absurd hc (by simp)
      · intro r hr2 hrs
        exact absurd (hi.gatedNoExec r hr2 hrs) (by rw [hr]; simp)
      · intro r hr2 hrs
        exact absurd (hi.gatedNoExec r hr2 (by rw [hrs]; decide)) (by rw [hr]; simp)
      · intro hc
        exact absurd (hi.unclassifiedNoAuto hc).1 (by rw [hr]; simp)
      · intro _
        rcases hi.analyzed (fun hcon => absurd (hcon.symm.trans h) (by decide)) with hcl | hsaw
        · exact absurd (hcl.symm.trans h) (by decide)
        · exact Or.inr hsaw
      · exact fun _ => Or.inr (Or.inr (Or.inl rfl))
      · exact fun hcon => absurd hcon (by simp [initState])
      · exact fun _ happ2 => hi.autoPath (by rw [hr]; simp) happ2
  | execFailed rest h hr =>
      refine ⟨?_, ?_, ?_, ?_, ?_, ?_, ?_, ?_, ?_, ?_⟩
      · have h1 := hi.mutex
        rw [hr, countNonTerminal_cons] at h1
        show countNonTerminal (ExecStatus.failed :: rest) ≤ 1
        rw [countNonTerminal_cons]
        simp [ExecStatus.nonTerminal] at h1 ⊢
        omega
      · exact fun hcon => absurd hcon (by simp [initState])
      · rintro (hc | hc) <;> exact absurd hc (by simp)
      · intro r hr2 hrs
        exact absurd (hi.gatedNoExec r hr2 hrs) (by rw [hr]; simp)
      · intro r hr2 hrs
        exact absurd (hi.gatedNoExec r hr2 (by rw [hrs]; decide)) (by rw [hr]; simp)
      · intro hc
        exact absurd (hi.unclassifiedNoAuto hc).1 (by rw [hr]; simp)
      · intro _
        rcases hi.analyzed (fun hcon => absurd (hcon.symm.trans h) (by decide)) with hcl | hsaw
        · exact absurd (hcl.symm.trans h) (by decide)
        · exact Or.inr hsaw
      · exact fun _ => Or.inr (Or.inr (Or.inl rfl))
      · exact fun hcon => absurd hcon (by simp [initState])
      · exact fun _ happ2 => hi.autoPath (by rw [hr]; simp) happ2
  | userClose h =>
      refine ⟨?_, ?_, ?_, ?_, ?_, ?_, ?_, ?_, ?_, ?_⟩
      · exact hi.mutex
      · exact fun hcon => absurd hcon (by simp [initState])
      · rintro (hc | hc) <;> exact absurd hc (by simp)
      · exact fun r hr hrs => hi.gatedNoExec r hr hrs
      · exact fun r _ _ => Or.inr rfl
      · intro hc
        have h6 := hi.unclassifiedNoAuto hc
        exact ⟨h6.1, h6.2.1, h6.2.2.1, Or.inr (Or.inr (Or.inr rfl))⟩
      · exact fun _ => Or.inl rfl
      · exact fun _ => Or.inr (Or.inr (Or.inr rfl))
      · exact fun hcon => absurd hcon (by simp [initState])
      · exact fun hne happ2 => hi.autoPath hne happ2

theorem inv_reachable {pol : Category → Option AutomationPolicy} {auth : String → Bool}
    {subject description : String} {pri : Priority} {s : PipelineState}
    (h : Reachable pol auth (initState subject description pri) s) : Inv pol s := by
  induction h with
  | refl => exact inv_init pol subject description pri
  | tail _ hstep ih => exact inv_step hstep ih

theorem step_keeps_text {pol : Category → Option AutomationPolicy} {auth : String → Bool}
    {s s' : PipelineState} (hstep : Step pol auth s s') :
    s'.subject = s.subject ∧ s'.description = s.description ∧ s'.priority = s.priority := by
  cases hstep <;> exact ⟨rfl, rfl, rfl⟩

theorem step_category {pol : Category → Option AutomationPolicy} {auth : String → Bool}
    {s s' : PipelineState} (hstep : Step pol auth s s') :
    s'.category = (classify s.subject s.description).1 ∨ s'.category = s.category := by
  cases hstep <;> first | exact Or.inr rfl | exact Or.inl rfl

theorem step_not_from_closed {pol : Category → Option AutomationPolicy} {auth : String → Bool}
    {s s' : PipelineState} (hstep : Step pol auth s s') :
    s.tstatus ≠ TicketStatus.closed := by
  cases hstep with
  | start h => rw [h]; decide
  | toDiagnosing p h hp => rw [h]; decide
  | noPlan h hp => rw [h]; decide
  | policyAuto p h hp hd hm => rw [h]; decide
  | policyGate p h hp hd => rw [h]; decide
  | approve r actor now h hr hrs ha hm => rw [h]; decide
  | reject r actor now h hr hrs ha => rw [h]; decide
  | reenqueue h hm => rw [h]; decide
  | execStart rest h hr => rw [h]; decide
  | execSucceed rest h hr => rw [h]; decide
  | execRetry rest h hr => rw [h]; decide
  | execRolledBack rest h hr => rw [h]; decide
  | execFailed rest h hr => rw [h]; decide
  | userClose h => exact h

theorem step_allowed_edge {pol : Category → Option AutomationPolicy} {auth : String → Bool}
    {s s' : PipelineState} (hstep : Step pol auth s s') :
    s'.tstatus = s.tstatus ∨ allowedEdge s.tstatus s'.tstatus = true := by
  cases hstep with
  | start h => right; rw [h]; rfl
  | toDiagnosing p h hp => right; rw [h]; rfl
  | noPlan h hp => right; rw [h]; rfl
  | policyAuto p h hp hd hm => right; rw [h]; rfl
  | policyGate p h hp hd => right; rw [h]; rfl
  | approve r actor now h hr hrs ha hm => right; rw [h]; rfl
  | reject r actor now h hr hrs ha => right; rw [h]; rfl
  | reenqueue h hm => left; rfl
  | execStart rest h hr => left; rfl
  | execSucceed rest h hr => right; rw [h]; rfl
  | execRetry rest h hr => left; rfl
  | execRolledBack rest h hr => right; rw [h]; rfl
  | execFailed rest h hr => right; rw [h]; rfl
  | userClose h =>
      right
      cases hx : s.tstatus
      case closed => exact absurd hx h
      all_goals rfl

theorem foldBest_no_match (text : String) (l : List Category) :
    ∀ acc : Category × Nat, (∀ c : Category, scoreFor text c = 0) →
      l.foldl (fun best c => if best.2 < scoreFor text c then (c, scoreFor text c) else best)
        acc = acc := by
  induction l with
  | nil => intro acc _; rfl
  | cons c cs ih =>
      intro acc h
      simp only [List.foldl_cons]
      rw [h c, if_neg (Nat.not_lt_zero acc.2)]
      exact ih acc h

/-- C3: in every reachable state of the pipeline, a ticket has at most one
non-terminal (pending or running) AutomationExecution; every step of the
orchestrator, including a concurrent re-enqueue of the same ticket,
preserves the bound. -/
theorem at_most_one_nonterminal_execution (pol : Category → Option AutomationPolicy)
    (auth : String → Bool) (subject description : String) (pri : Priority)
    (s : PipelineState) (h : Reachable pol auth (initState subject description pri) s) :
    countNonTerminal s.execs ≤ 1 :=
  (inv_reachable h).mutex

theorem at_most_one_nonterminal_execution_witness :
    countNonTerminal (initState "hello vpn" "is broken" Priority.medium).execs ≤ 1 :=
  at_most_one_nonterminal_execution (fun _ => none) (fun _ => false) "hello vpn" "is broken"
    Priority.medium _ Relation.ReflTransGen.refl

/-- C2: in every reachable state, while an ApprovalRequest exists and has
not reached approved no AutomationExecution exists; a gated plan with no
approval request has no executions either; and after a rejection there are
no executions and the ticket sits in the manual queue (unless the user
closed it). -/
theorem approval_gates_execution (pol : Category → Option AutomationPolicy)
    (auth : String → Bool) (subject description : String) (pri : Priority)
    (s : PipelineState) (h : Reachable pol auth (initState subject description pri) s) :
    (∀ r, s.approval = some r → r.status ≠ .approved → s.execs = []) ∧
    (∀ p, s.plan = some p → evaluate p (pol s.category) = .requires_approval →
      s.approval = none → s.execs = []) ∧
    (∀ r, s.approval = some r → r.status = .rejected →
      s.execs = [] ∧ (s.tstatus = .manual_queue ∨ s.tstatus = .closed)) := by
  have hi := inv_reachable h
  refine ⟨hi.gatedNoExec, ?_, ?_⟩
  · intro p hp hreq happ
    by_cases hne : s.execs = []
    · exact hne
    · obtain ⟨p2, hp2, hauto⟩ := hi.autoPath hne happ
      rw [hp] at hp2
      injection hp2 with hpe
      rw [← hpe] at hauto
      rw [hreq] at hauto
      exact PolicyDecision.noConfusion hauto
  · intro r hr hrej
    exact ⟨hi.gatedNoExec r hr (by rw [hrej]; decide), hi.rejectedManual r hr hrej⟩

theorem approval_gates_execution_witness :
    gatedDemo4.execs = [] ∧
    (gatedDemo4.tstatus = .manual_queue ∨ gatedDemo4.tstatus = .closed) := by
  have st1 : Step gatedPolicies allAuthorized gatedDemo0 gatedDemo1 :=
    Step.start gatedDemo0 rfl
  have st2 : Step gatedPolicies allAuthorized gatedDemo1 gatedDemo2 :=
    Step.toDiagnosing gatedDemo1 gatedPlan rfl (by decide)
  have st3 : Step gatedPolicies allAuthorized gatedDemo2 gatedDemo3 :=
    Step.policyGate gatedDemo2 gatedPlan rfl rfl (by decide)
  have st4 : Step gatedPolicies allAuthorized gatedDemo3 gatedDemo4 :=
    Step.reject gatedDemo3 { status := .pending, decided_by := none, decided_at := none }
      "boss" 7 rfl rfl rfl rfl
  have hreach : Reachable gatedPolicies allAuthorized gatedDemo0 gatedDemo4 :=
    Relation.ReflTransGen.tail
      (Relation.ReflTransGen.tail
        (Relation.ReflTransGen.tail
          (Relation.ReflTransGen.tail Relation.ReflTransGen.refl st1) st2) st3) st4
  exact (approval_gates_execution gatedPolicies allAuthorized
      "need access to finance share for user@co.example" "permission denied" Priority.high
      gatedDemo4 hreach).2.2
    { status := .rejected, decided_by := some "boss", decided_at := some 7 } rfl rfl

/-- C5: every orchestrator step either leaves the ticket status unchanged
or follows an edge of the spec state machine; no step acts on a closed
ticket; and every reachable state beyond analyzing (other than a
user-closed ticket) has passed through analyzing. -/
theorem ticket_state_machine (pol : Category → Option AutomationPolicy)
    (auth : String → Bool) :
    (∀ s s' : PipelineState, Step pol auth s s' →
      (s'.tstatus = s.tstatus ∨ allowedEdge s.tstatus s'.tstatus = true) ∧
      s.tstatus ≠ TicketStatus.closed) ∧
    (∀ (subject description : String) (pri : Priority) (s : PipelineState),
      Reachable pol auth (initState subject description pri) s →
      laterState s.tstatus = true → s.sawAnalyzing = true) := by
  constructor
  · exact fun s s' hstep => ⟨step_allowed_edge hstep, step_not_from_closed hstep⟩
  · intro subject description pri s hreach hlater
    have hinv := inv_reachable hreach
    have hne : s.tstatus ≠ TicketStatus.new := by
      intro hcon
      rw [hcon] at hlater
      exact absurd hlater (by decide)
    have hnc : s.tstatus ≠ TicketStatus.closed := by
      intro hcon
      rw [hcon] at hlater
      exact absurd hlater (by decide)
    rcases hinv.analyzed hne with hx | hx
    · exact absurd hx hnc
    · exact hx

theorem ticket_state_machine_witness :
    (initState "hello" "world" Priority.low).tstatus ≠ TicketStatus.closed ∧
    unclDemo2.sawAnalyzing = true := by
  have h := ticket_state_machine (fun _ => none) (fun _ => false)
  constructor
  · exact (h.1 (initState "hello" "world" Priority.low) _
      (Step.start (initState "hello" "world" Priority.low) rfl)).2
  · have st1 : Step (fun _ => none) (fun _ => false) unclDemo0 unclDemo1 :=
      Step.start unclDemo0 rfl
    have st2 : Step (fun _ => none) (fun _ => false) unclDemo1 unclDemo2 :=
      Step.noPlan unclDemo1 rfl (by decide)
    exact h.2 "hello" "world" Priority.low unclDemo2
      (Relation.ReflTransGen.tail
        (Relation.ReflTransGen.tail Relation.ReflTransGen.refl st1) st2) (by decide)

/-- C6: when no category pattern clears the minimum confidence floor,
classify returns unclassified with confidence exactly 0, and no state
reachable for that ticket ever holds an AutomationExecution; classify is a
pure function of the input text and the static pattern tables. -/
theorem classify_low_confidence (subject description : String)
    (h : ∀ c : Category, scoreFor (ticketText subject description) c < minConfidenceFloor) :
    classify subject description = (Category.unclassified, 0) ∧
    ∀ (pol : Category → Option AutomationPolicy) (auth : String → Bool) (pri : Priority)
      (s : PipelineState), Reachable pol auth (initState subject description pri) s →
      s.execs = [] := by
  have hzero : ∀ c : Category, scoreFor (ticketText subject description) c = 0 :=
    fun c => Nat.lt_one_iff.mp (h c)
  have hcls : classify subject description = (Category.unclassified, 0) := by
    have hpick : pickBest (ticketText subject description) = (Category.unclassified, 0) :=
      foldBest_no_match (ticketText subject description) categoryPriority
        (Category.unclassified, 0) hzero
    simp [classify, pickBest] at hpick ⊢
    simp [hpick, minConfidenceFloor]
  refine ⟨hcls, ?_⟩
  intro pol auth pri s hreach
  have htext : s.subject = subject ∧ s.description = description ∧
      s.category = Category.unclassified := by
    induction hreach with
    | refl => exact ⟨rfl, rfl, rfl⟩
    | tail hr hstep ih =>
        obtain ⟨hsub, hdesc, hcat⟩ := ih
        obtain ⟨hsub2, hdesc2, _⟩ := step_keeps_text hstep
        refine ⟨hsub2.trans hsub, hdesc2.trans hdesc, ?_⟩
        rcases step_category hstep with hc | hc
        · rw [hc, hsub, hdesc, hcls]
        · rw [hc]
          exact hcat
  exact ((inv_reachable hreach).unclassifiedNoAuto htext.2.2).1

theorem classify_low_confidence_witness :
    classify "hello" "world" = (Category.unclassified, 0) ∧
    (initState "hello" "world" Priority.low).execs = [] := by
  have h := classify_low_confidence "hello" "world" (by decide)
  exact ⟨h.1, h.2 (fun _ => none) (fun _ => false) Priority.low _ Relation.ReflTransGen.refl⟩

/-- C7: diagnose returns NoPlan for the unclassified category and whenever
a category's required entity is missing, and a ticket in analyzing whose
diagnosis is NoPlan is routed to the manual queue; diagnose is a
deterministic function that takes no integration adapter. -/
theorem diagnose_manual_routing :
    (∀ (e : Option String) (pri : Priority), diagnose Category.unclassified e pri = none) ∧
    (∀ (c : Category) (pri : Priority), requiresEntity c = true → diagnose c none pri = none) ∧
    (∀ (pol : Category → Option AutomationPolicy) (auth : String → Bool) (s : PipelineState),
      s.tstatus = .analyzing → diagnose s.category (entityOf s) s.priority = none →
      Step pol auth s { s with tstatus := .manual_queue }) := by
  refine ⟨fun e pri => rfl, fun c pri _ => ?_, fun pol auth s h hp => Step.noPlan s h hp⟩
  cases c <;> rfl

theorem diagnose_manual_routing_witness :
    diagnose Category.unclassified (some "user@example.com") Priority.high = none ∧
    diagnose Category.password_reset none Priority.low = none ∧
    Step (fun _ => none) (fun _ => false)
      { initState "hi" "there" Priority.low with tstatus := TicketStatus.analyzing }
      { { initState "hi" "there" Priority.low with tstatus := TicketStatus.analyzing } with
          tstatus := TicketStatus.manual_queue } :=
  ⟨diagnose_manual_routing.1 (some "user@example.com") Priority.high,
   diagnose_manual_routing.2.1 Category.password_reset Priority.low rfl,
   diagnose_manual_routing.2.2 (fun _ => none) (fun _ => false)
     { initState "hi" "there" Priority.low with tstatus := TicketStatus.analyzing } rfl rfl⟩

theorem evaluate_requires_approval_iff_witness :
    evaluate { action_type := "grant_access", parameter := none, risk_level := .high }
      (some { risk_threshold := .high, auto_approve := true, max_retries := 3,
              timeout_seconds := 30 }) = .requires_approval ∧
    evaluate { action_type := "grant_access", parameter := none, risk_level := .high }
      none = .requires_approval := by
  have h := evaluate_requires_approval_iff
    { action_type := "grant_access", parameter := none, risk_level := .high }
  refine ⟨?_, h.2⟩
  exact ((h.1 { risk_threshold := .high, auto_approve := true, max_retries := 3,
                timeout_seconds := 30 }).1).mpr (Or.inl (by decide))

end ITSupport
